import Mathlib

/-!
Verification development for the TinyRayTracer repository.

The C++ sources (Main.cpp, libs/Sphere.h, libs/Light.h) are embedded
shallowly: float arithmetic is idealized as exact rational arithmetic,
std::vector as List, out-parameters and early returns as explicit record
results.  The vector primitives live in libs/Geometry.h, which is not part
of the sources; they are modelled from the specification (sections 2 and 3).
-/

/-- Modelled from the spec: Geometry.h (absent from the sources) provides a
3D float vector; section 2 lists dot product, scaling, addition, subtraction,
negation, normalization and Euclidean norm.  Floats are idealized as
rationals. -/
structure Vec3 where
  x : ℚ
  y : ℚ
  z : ℚ
deriving DecidableEq

/-- Modelled from the spec: 4D float vector, used only for the albedo. -/
structure Vec4 where
  x : ℚ
  y : ℚ
  z : ℚ
  w : ℚ
deriving DecidableEq

/-- Modelled from the spec: componentwise vector addition. -/
def Vec3.add (u v : Vec3) : Vec3 := ⟨u.x + v.x, u.y + v.y, u.z + v.z⟩

/-- Modelled from the spec: componentwise vector subtraction. -/
def Vec3.sub (u v : Vec3) : Vec3 := ⟨u.x - v.x, u.y - v.y, u.z - v.z⟩

/-- Modelled from the spec: vector negation. -/
def Vec3.neg (v : Vec3) : Vec3 := ⟨-v.x, -v.y, -v.z⟩

/-- Modelled from the spec: scaling of a vector by a scalar. -/
def Vec3.smul (v : Vec3) (s : ℚ) : Vec3 := ⟨v.x * s, v.y * s, v.z * s⟩

/-- Modelled from the spec: dot product. -/
def Vec3.dot (u v : Vec3) : ℚ := u.x * v.x + u.y * v.y + u.z * v.z

/-- Idealization of sqrtf on rationals: exact whenever the argument is the
square of a rational (which covers every concrete input evaluated in this
file); on other nonnegative inputs it is a floor-based rational
approximation, and 0 on negative inputs (where sqrtf would produce NaN). -/
def ratSqrt (q : ℚ) : ℚ := Rat.sqrt q

/-- Modelled from the spec: Euclidean norm of a vector. -/
def Vec3.norm (v : Vec3) : ℚ := ratSqrt (v.dot v)

/-- Modelled from the spec: normalization to unit norm (the spec leaves the
zero vector undefined; rational division by zero makes this total). -/
def Vec3.normalize (v : Vec3) : Vec3 := v.smul (1 / v.norm)

/-- C++ int(...) cast applied to a float value: truncation toward zero. -/
def ratTrunc (q : ℚ) : ℤ := if 0 ≤ q then ⌊q⌋ else -⌊-q⌋

/-- Idealization of powf for the nonnegative bases and exponents the program
uses: exact for integer exponents, 0 on other exponents. -/
def ratPow (x e : ℚ) : ℚ :=
  if e.den = 1 ∧ 0 ≤ e.num then x ^ e.num.toNat else 0

/-- Material from libs/Sphere.h: refractive index, 4-component albedo,
diffuse color, specular exponent. -/
structure Material where
  m_RefractiveIndex : ℚ
  m_Albedo : Vec4
  m_DiffuseColor : Vec3
  m_SpecularExponent : ℚ
deriving DecidableEq

/-- The default-constructed Material: albedo (1,0,0,0), everything else
zero-initialized. -/
def initMaterial : Material := ⟨0, ⟨1, 0, 0, 0⟩, ⟨0, 0, 0⟩, 0⟩

/-- Sphere from libs/Sphere.h: center, radius, material. -/
structure Sphere where
  m_Center : Vec3
  m_Radius : ℚ
  m_Material : Material
deriving DecidableEq

/-- Light from libs/Light.h: position and scalar intensity. -/
structure Light where
  m_Position : Vec3
  m_Intensity : ℚ
deriving DecidableEq

/-- The dot product b of (origin - center) with the direction, as computed
by Sphere::RayIntersect. -/
def Sphere.sphB (s : Sphere) (origin direction : Vec3) : ℚ :=
  (origin.sub s.m_Center).dot direction

/-- The discriminant delta = b*b - dot(xa,xa) + r*r of Sphere::RayIntersect. -/
def Sphere.sphDelta (s : Sphere) (origin direction : Vec3) : ℚ :=
  s.sphB origin direction * s.sphB origin direction
    - (origin.sub s.m_Center).dot (origin.sub s.m_Center)
    + s.m_Radius * s.m_Radius

/-- The smaller quadratic root s1 = -b - sqrt(delta) of Sphere::RayIntersect. -/
def Sphere.sphS1 (s : Sphere) (origin direction : Vec3) : ℚ :=
  - s.sphB origin direction - ratSqrt (s.sphDelta origin direction)

/-- The larger quadratic root s2 = -b + sqrt(delta) of Sphere::RayIntersect. -/
def Sphere.sphS2 (s : Sphere) (origin direction : Vec3) : ℚ :=
  - s.sphB origin direction + ratSqrt (s.sphDelta origin direction)

/-- Sphere::RayIntersect from libs/Sphere.h; the bool result together with
the out-parameter t becomes an Option. -/
def Sphere.RayIntersect (s : Sphere) (origin direction : Vec3) : Option ℚ :=
  if s.sphDelta origin direction < 0 then none
  else if 0 < s.sphS1 origin direction then some (s.sphS1 origin direction)
  else if 0 < s.sphS2 origin direction then some (s.sphS2 origin direction)
  else none

/-- Hit record from Main.cpp; the default constructor zero-initializes the
point and normal and default-constructs the material. -/
structure Hit where
  point : Vec3
  normal : Vec3
  m_Material : Material
deriving DecidableEq

/-- The default-constructed Hit(). -/
def initHit : Hit := ⟨⟨0, 0, 0⟩, ⟨0, 0, 0⟩, initMaterial⟩

/-- std::numeric_limits of float, max(): (2 - 2^-23) * 2^127, exact. -/
def fltMax : ℚ := (2 ^ 24 - 1) * 2 ^ 104

/-- The Hit record written by the sphere loop of SceneIntersect for sphere s
at ray parameter t: point, outward normal, material (Main.cpp lines 64-66). -/
def sphereHitAt (origin direction : Vec3) (s : Sphere) (t : ℚ) : Hit :=
  ⟨origin.add (direction.smul t),
   ((origin.add (direction.smul t)).sub s.m_Center).normalize,
   s.m_Material⟩

/-- One iteration of the sphere loop of SceneIntersect: if the sphere is hit
strictly closer than the best distance so far, record distance, point,
normal and material. -/
def sphereStep (origin direction : Vec3) (acc : ℚ × Hit) (s : Sphere) : ℚ × Hit :=
  match s.RayIntersect origin direction with
  | some t => if t < acc.1 then (t, sphereHitAt origin direction s t) else acc
  | none => acc

/-- The plane-ray parameter d = -(origin.y + 4) / direction.y for the
checkerboard plane y = -4. -/
def planeD (origin direction : Vec3) : ℚ := (- (origin.y + 4)) / direction.y

/-- The point where the ray meets the checkerboard plane. -/
def planeP (origin direction : Vec3) : Vec3 :=
  origin.add (direction.smul (planeD origin direction))

/-- The checkerboard tile color of Main.cpp line 78: white when
int(0.5*x + 1000) + int(0.5*z) is odd (the C++ & 1 test), pale orange
otherwise. -/
def checkerboardColor (x z : ℚ) : Vec3 :=
  if (ratTrunc (x / 2 + 1000) + ratTrunc (z / 2)) % 2 = 1 then ⟨1, 1, 1⟩
  else ⟨1, 7/10, 3/10⟩

/-- The geometric acceptance conditions of the plane branch, split off for
reuse: the near-parallel guard and the window conditions of line 76 other
than the comparison against the sphere distance. -/
def planeGeomOK (origin direction : Vec3) : Prop :=
  |direction.y| > 1/1000 ∧ 0 < planeD origin direction ∧
    |(planeP origin direction).x| < 10 ∧
    (planeP origin direction).z < -10 ∧ -30 < (planeP origin direction).z

instance (origin direction : Vec3) : Decidable (planeGeomOK origin direction) := by
  unfold planeGeomOK; infer_instance

/-- Full acceptance of the plane hit: the geometric conditions plus
d < spheresDistance. -/
def planeAccepted (origin direction : Vec3) (sd : ℚ) : Prop :=
  planeGeomOK origin direction ∧ planeD origin direction < sd

instance (origin direction : Vec3) (sd : ℚ) :
    Decidable (planeAccepted origin direction sd) := by
  unfold planeAccepted; infer_instance

/-- The plane part of SceneIntersect (Main.cpp lines 71-87): given the
sphere-loop state, produce the checkerboard distance and the updated Hit.
Only the diffuse color of the material is assigned in the accepting branch;
the other material fields keep their prior value. -/
def planeData (origin direction : Vec3) (sd : ℚ) (h1 : Hit) : ℚ × Hit :=
  if |direction.y| > 1/1000 then
    let d := planeD origin direction
    let p := planeP origin direction
    if 0 < d ∧ |p.x| < 10 ∧ p.z < -10 ∧ -30 < p.z ∧ d < sd then
      (d, ⟨p, ⟨0, 1, 0⟩,
           { h1.m_Material with
             m_DiffuseColor := (checkerboardColor p.x p.z).smul (3/10) }⟩)
    else (fltMax, h1)
  else (fltMax, h1)

/-- Result of SceneIntersect: the returned bool, the hitInfo out-parameter,
and the two local distances. -/
structure SceneResult where
  hit : Bool
  hitInfo : Hit
  spheresDistance : ℚ
  checkerboardDistance : ℚ
deriving DecidableEq

/-- SceneIntersect from Main.cpp lines 51-90. -/
def SceneIntersect (origin direction : Vec3) (spheres : List Sphere) : SceneResult :=
  let sAcc := spheres.foldl (sphereStep origin direction) (fltMax, initHit)
  let pAcc := planeData origin direction sAcc.1 sAcc.2
  { hit := decide (min sAcc.1 pAcc.1 < 1000)
    hitInfo := pAcc.2
    spheresDistance := sAcc.1
    checkerboardDistance := pAcc.1 }

/-- Reflect from Main.cpp lines 23-26. -/
def Reflect (direction normal : Vec3) : Vec3 :=
  direction.sub ((normal.smul 2).smul (direction.dot normal))

/-- Refract from Main.cpp lines 28-49 (Snell's law); sqrtf of a negative
radicand (total internal reflection, NaN in C++) is idealized as 0 by
ratSqrt. -/
def Refract (direction normal : Vec3) (refractiveIndex : ℚ) : Vec3 :=
  let c0 := - (normal.dot direction)
  let r := if c0 < 0 then refractiveIndex else 1 / refractiveIndex
  let c := if c0 < 0 then -c0 else c0
  let n := if c0 < 0 then normal.neg else normal
  let k := (r * r) * (1 - c * c)
  let s := ratSqrt (1 - k)
  (direction.smul r).add (n.smul (r * c - s))

/-- The 1e-3 bias applied to secondary-ray origins (Main.cpp lines 102, 106
and 115): step off the surface on the side the new ray travels. -/
def biasedOrigin (newDirection normal point : Vec3) : Vec3 :=
  if newDirection.dot normal < 0 then point.sub (normal.smul (1/1000))
  else point.add (normal.smul (1/1000))

/-- The occlusion test of the shadow ray in CastRay (Main.cpp line 117):
the shadow ray hits some surface strictly closer than the light. -/
def occluded (spheres : List Sphere) (hitInfo : Hit) (light : Light) : Prop :=
  let lightDirection := (light.m_Position.sub hitInfo.point).normalize
  let lightDistance := (light.m_Position.sub hitInfo.point).norm
  let shadowOrigin := biasedOrigin lightDirection hitInfo.normal hitInfo.point
  let sres := SceneIntersect shadowOrigin lightDirection spheres
  sres.hit = true ∧ (sres.hitInfo.point.sub shadowOrigin).norm < lightDistance

instance (spheres : List Sphere) (hitInfo : Hit) (light : Light) :
    Decidable (occluded spheres hitInfo light) := by
  unfold occluded; infer_instance

/-- One iteration of the lighting loop of CastRay (Main.cpp lines 109-130),
acting on the pair of accumulated diffuse and specular intensities. -/
def lightStep (spheres : List Sphere) (direction : Vec3) (hitInfo : Hit)
    (acc : ℚ × ℚ) (light : Light) : ℚ × ℚ :=
  if occluded spheres hitInfo light then acc
  else
    let lightDirection := (light.m_Position.sub hitInfo.point).normalize
    let reflectedLight := Reflect lightDirection hitInfo.normal
    let diffuseFactor := (lightDirection.dot hitInfo.normal) /
      (lightDirection.norm * hitInfo.normal.norm)
    (acc.1 + light.m_Intensity * max 0 diffuseFactor,
     acc.2 + light.m_Intensity *
       ratPow (max 0 (reflectedLight.dot direction)) hitInfo.m_Material.m_SpecularExponent)

/-- The fixed background color (0.2, 0.5, 0.8) of Main.cpp line 141. -/
def backgroundColor : Vec3 := ⟨1/5, 1/2, 4/5⟩

/-- The recursion of CastRay (Main.cpp lines 92-142), expressed structurally
on the remaining recursion budget 5 - depth: budget 0 corresponds to
depth >= 5, and each recursive call spends one unit, matching depth + 1. -/
def castRayFuel (spheres : List Sphere) (lights : List Light) :
    ℕ → Vec3 → Vec3 → Vec3
  | 0, _, _ => backgroundColor
  | gas + 1, origin, direction =>
      let res := SceneIntersect origin direction spheres
      if res.hit = true then
        let hitInfo := res.hitInfo
        let reflectDirection := (Reflect direction hitInfo.normal).normalize
        let reflectOrigin := biasedOrigin reflectDirection hitInfo.normal hitInfo.point
        let reflectColor := castRayFuel spheres lights gas reflectOrigin reflectDirection
        let refractDirection :=
          (Refract direction hitInfo.normal hitInfo.m_Material.m_RefractiveIndex).normalize
        let refractOrigin := biasedOrigin refractDirection hitInfo.normal hitInfo.point
        let refractColor := castRayFuel spheres lights gas refractOrigin refractDirection
        let acc := lights.foldl (lightStep spheres direction hitInfo) (0, 0)
        let diffuseComp := (hitInfo.m_Material.m_DiffuseColor.smul
          hitInfo.m_Material.m_Albedo.x).smul acc.1
        let specularComp := ((⟨1, 1, 1⟩ : Vec3).smul hitInfo.m_Material.m_Albedo.y).smul acc.2
        let reflectComp := reflectColor.smul hitInfo.m_Material.m_Albedo.z
        let refractComp := refractColor.smul hitInfo.m_Material.m_Albedo.w
        ((diffuseComp.add specularComp).add reflectComp).add refractComp
      else backgroundColor

/-- CastRay from Main.cpp lines 92-142: the depth-bounded recursion is run
with recursion budget 5 - depth, so depth >= 5 is exactly budget 0. -/
def CastRay (origin direction : Vec3) (spheres : List Sphere) (lights : List Light)
    (depth : ℕ) : Vec3 :=
  castRayFuel spheres lights (5 - depth) origin direction

/-- Stated from the spec's words (4.2 result policy): the nearest sphere-hit
distance along the ray, taken as float-max when no sphere is hit. -/
def specNearestSphereDistance (origin direction : Vec3) (spheres : List Sphere) : ℚ :=
  (spheres.filterMap (fun s => s.RayIntersect origin direction)).foldl min fltMax

/-- Stated from the spec's words (4.2 result policy): the accepted
checkerboard-plane distance, taken as float-max when not accepted. -/
def specPlaneDistance (origin direction : Vec3) (spheres : List Sphere) : ℚ :=
  if planeAccepted origin direction (specNearestSphereDistance origin direction spheres)
  then planeD origin direction else fltMax

/-- The candidate intersection distances along a ray: the per-sphere hit
parameters, plus the checkerboard-plane parameter when the geometric window
conditions of the plane branch hold. -/
def candidateDists (origin direction : Vec3) (spheres : List Sphere) : List ℚ :=
  (spheres.filterMap (fun s => s.RayIntersect origin direction)) ++
    (if planeGeomOK origin direction then [planeD origin direction] else [])

theorem ratSqrt_of_sq (r : ℚ) (h : 0 ≤ r) : ratSqrt (r * r) = r := by
  rw [ratSqrt, Rat.sqrt_eq, abs_of_nonneg h]

theorem ratSqrt_one : ratSqrt 1 = 1 := by
  have h := ratSqrt_of_sq 1 (by norm_num)
  norm_num at h
  exact h

theorem ratSqrt_four : ratSqrt 4 = 2 := by
  have h := ratSqrt_of_sq 2 (by norm_num)
  norm_num at h
  exact h

theorem ratSqrt_hundred : ratSqrt 100 = 10 := by
  have h := ratSqrt_of_sq 10 (by norm_num)
  norm_num at h
  exact h

theorem ratSqrt_shadowSq : ratSqrt (15992001/1000000) = 3999/1000 := by
  have h := ratSqrt_of_sq (3999/1000) (by norm_num)
  norm_num at h
  exact h

theorem foldl_min_le_init (l : List ℚ) (a : ℚ) : l.foldl min a ≤ a := by
  induction l generalizing a with
  | nil => exact le_refl a
  | cons x l ih => exact le_trans (ih (min a x)) (min_le_left a x)

theorem foldl_min_le_mem (l : List ℚ) (a : ℚ) :
    ∀ c ∈ l, l.foldl min a ≤ c := by
  induction l generalizing a with
  | nil => intro c hc; cases hc
  | cons x l ih =>
      intro c hc
      rcases List.mem_cons.mp hc with h | h
      · subst h
        exact le_trans (foldl_min_le_init l (min a c)) (min_le_right a c)
      · exact ih (min a x) c h

theorem foldl_min_eq_or_mem (l : List ℚ) (a : ℚ) :
    l.foldl min a = a ∨ l.foldl min a ∈ l := by
  induction l generalizing a with
  | nil => exact Or.inl rfl
  | cons x l ih =>
      rcases ih (min a x) with h | h
      · rcases min_choice a x with hm | hm
        · rw [List.foldl_cons, h, hm]; exact Or.inl rfl
        · rw [List.foldl_cons, h, hm]; exact Or.inr (List.mem_cons_self x l)
      · exact Or.inr (List.mem_cons_of_mem x h)

theorem sphereLoop_fst (origin direction : Vec3) (l : List Sphere) :
    ∀ init : ℚ × Hit,
      (l.foldl (sphereStep origin direction) init).1 =
        (l.filterMap (fun s => s.RayIntersect origin direction)).foldl min init.1 := by
  induction l with
  | nil => intro init; rfl
  | cons s l ih =>
      intro init
      rw [List.foldl_cons, List.filterMap_cons]
      cases hri : s.RayIntersect origin direction with
      | none => simpa [sphereStep, hri] using ih init
      | some t =>
          rw [List.foldl_cons]
          rcases lt_or_le t init.1 with hlt | hle
          · have : sphereStep origin direction init s =
                (t, sphereHitAt origin direction s t) := by
              simp [sphereStep, hri, hlt]
            rw [this, ih, min_eq_right (le_of_lt hlt)]
          · have h1 : sphereStep origin direction init s = init := by
              simp [sphereStep, hri, not_lt.mpr hle]
            rw [h1, ih, min_eq_left hle]

theorem sphereLoop_inv (origin direction : Vec3) (l : List Sphere) :
    ∀ init : ℚ × Hit,
      l.foldl (sphereStep origin direction) init = init ∨
      ∃ s ∈ l, s.RayIntersect origin direction =
          some (l.foldl (sphereStep origin direction) init).1 ∧
        (l.foldl (sphereStep origin direction) init).2 =
          sphereHitAt origin direction s
            (l.foldl (sphereStep origin direction) init).1 := by
  induction l with
  | nil => intro init; exact Or.inl rfl
  | cons s l ih =>
      intro init
      rw [List.foldl_cons]
      cases hri : s.RayIntersect origin direction with
      | none =>
          have hstep : sphereStep origin direction init s = init := by
            simp [sphereStep, hri]
          rw [hstep]
          rcases ih init with h | ⟨s', hs', h1, h2⟩
          · exact Or.inl h
          · exact Or.inr ⟨s', List.mem_cons_of_mem s hs', h1, h2⟩
      | some t =>
          rcases lt_or_le t init.1 with hlt | hle
          · have hstep : sphereStep origin direction init s =
                (t, sphereHitAt origin direction s t) := by
              simp [sphereStep, hri, hlt]
            rw [hstep]
            rcases ih (t, sphereHitAt origin direction s t) with h | ⟨s', hs', h1, h2⟩
            · rw [h]
              exact Or.inr ⟨s, List.mem_cons_self s l, by rw [hri], rfl⟩
            · exact Or.inr ⟨s', List.mem_cons_of_mem s hs', h1, h2⟩
          · have hstep : sphereStep origin direction init s = init := by
              simp [sphereStep, hri, not_lt.mpr hle]
            rw [hstep]
            rcases ih init with h | ⟨s', hs', h1, h2⟩
            · exact Or.inl h
            · exact Or.inr ⟨s', List.mem_cons_of_mem s hs', h1, h2⟩

theorem sphereLoop_fst_le (origin direction : Vec3) (l : List Sphere)
    (init : ℚ × Hit) : (l.foldl (sphereStep origin direction) init).1 ≤ init.1 := by
  rw [sphereLoop_fst]
  exact foldl_min_le_init _ _

theorem sphereLoop_untouched (origin direction : Vec3) (l : List Sphere) :
    ∀ init : ℚ × Hit,
      (l.foldl (sphereStep origin direction) init).1 = init.1 →
      l.foldl (sphereStep origin direction) init = init := by
  induction l with
  | nil => intro init _; rfl
  | cons s l ih =>
      intro init hfst
      rw [List.foldl_cons] at hfst ⊢
      cases hri : s.RayIntersect origin direction with
      | none =>
          have hstep : sphereStep origin direction init s = init := by
            simp [sphereStep, hri]
          rw [hstep] at hfst ⊢
          exact ih init hfst
      | some t =>
          rcases lt_or_le t init.1 with hlt | hle
          · exfalso
            have hstep : sphereStep origin direction init s =
                (t, sphereHitAt origin direction s t) := by
              simp [sphereStep, hri, hlt]
            rw [hstep] at hfst
            have hle2 := sphereLoop_fst_le origin direction l
              (t, sphereHitAt origin direction s t)
            rw [hfst] at hle2
            exact absurd (lt_of_le_of_lt hle2 hlt) (lt_irrefl _)
          · have hstep : sphereStep origin direction init s = init := by
              simp [sphereStep, hri, not_lt.mpr hle]
            rw [hstep] at hfst ⊢
            exact ih init hfst

theorem planeData_accepted (origin direction : Vec3) (sd : ℚ) (h1 : Hit)
    (h : planeAccepted origin direction sd) :
    planeData origin direction sd h1 =
      (planeD origin direction,
       ⟨planeP origin direction, ⟨0, 1, 0⟩,
        { h1.m_Material with
          m_DiffuseColor :=
            (checkerboardColor (planeP origin direction).x
              (planeP origin direction).z).smul (3/10) }⟩) := by
  obtain ⟨⟨hy, hd, hx, hz1, hz2⟩, hsd⟩ := h
  rw [planeData, if_pos hy, if_pos ⟨hd, hx, hz1, hz2, hsd⟩]

theorem planeData_rejected (origin direction : Vec3) (sd : ℚ) (h1 : Hit)
    (h : ¬ planeAccepted origin direction sd) :
    planeData origin direction sd h1 = (fltMax, h1) := by
  rw [planeData]
  by_cases hy : |direction.y| > 1/1000
  · rw [if_pos hy, if_neg]
    intro ⟨hd, hx, hz1, hz2, hsd⟩
    exact h ⟨⟨hy, hd, hx, hz1, hz2⟩, hsd⟩
  · rw [if_neg hy]

theorem planeData_fst_accepted (origin direction : Vec3) (sd : ℚ) (h1 : Hit)
    (h : planeAccepted origin direction sd) :
    (planeData origin direction sd h1).1 = planeD origin direction := by
  rw [planeData_accepted _ _ _ _ h]

theorem planeData_snd_accepted (origin direction : Vec3) (sd : ℚ) (h1 : Hit)
    (h : planeAccepted origin direction sd) :
    (planeData origin direction sd h1).2 =
      ⟨planeP origin direction, ⟨0, 1, 0⟩,
       { h1.m_Material with
         m_DiffuseColor :=
           (checkerboardColor (planeP origin direction).x
             (planeP origin direction).z).smul (3/10) }⟩ := by
  rw [planeData_accepted _ _ _ _ h]

theorem planeData_fst_rejected (origin direction : Vec3) (sd : ℚ) (h1 : Hit)
    (h : ¬ planeAccepted origin direction sd) :
    (planeData origin direction sd h1).1 = fltMax := by
  rw [planeData_rejected _ _ _ _ h]

theorem planeData_snd_rejected (origin direction : Vec3) (sd : ℚ) (h1 : Hit)
    (h : ¬ planeAccepted origin direction sd) :
    (planeData origin direction sd h1).2 = h1 := by
  rw [planeData_rejected _ _ _ _ h]

theorem sceneIntersect_spheresDistance (origin direction : Vec3) (spheres : List Sphere) :
    (SceneIntersect origin direction spheres).spheresDistance =
      (spheres.foldl (sphereStep origin direction) (fltMax, initHit)).1 := rfl

theorem sceneIntersect_checkerboardDistance (origin direction : Vec3) (spheres : List Sphere) :
    (SceneIntersect origin direction spheres).checkerboardDistance =
      (planeData origin direction
        (spheres.foldl (sphereStep origin direction) (fltMax, initHit)).1
        (spheres.foldl (sphereStep origin direction) (fltMax, initHit)).2).1 := rfl

theorem sceneIntersect_hitInfo (origin direction : Vec3) (spheres : List Sphere) :
    (SceneIntersect origin direction spheres).hitInfo =
      (planeData origin direction
        (spheres.foldl (sphereStep origin direction) (fltMax, initHit)).1
        (spheres.foldl (sphereStep origin direction) (fltMax, initHit)).2).2 := rfl

theorem sceneIntersect_hit (origin direction : Vec3) (spheres : List Sphere) :
    (SceneIntersect origin direction spheres).hit =
      decide (min (spheres.foldl (sphereStep origin direction) (fltMax, initHit)).1
        (planeData origin direction
          (spheres.foldl (sphereStep origin direction) (fltMax, initHit)).1
          (spheres.foldl (sphereStep origin direction) (fltMax, initHit)).2).1 < 1000) := rfl

theorem ratTrunc_of_nonneg (q : ℚ) (h : 0 ≤ q) : ratTrunc q = ⌊q⌋ := by
  rw [ratTrunc, if_pos h]

theorem ratTrunc_of_neg (q : ℚ) (h : q < 0) : ratTrunc q = ⌈q⌉ := by
  rw [ratTrunc, if_neg (not_le.mpr h), Int.floor_neg, neg_neg]

theorem ceil_eq_floor_of_den_one (q : ℚ) (hd : q.den = 1) : ⌈q⌉ = ⌊q⌋ := by
  rw [← Rat.coe_int_num_of_den_eq_one hd, Int.ceil_intCast, Int.floor_intCast]

theorem ceil_eq_floor_add_one_of_den_ne_one (q : ℚ) (hd : q.den ≠ 1) :
    ⌈q⌉ = ⌊q⌋ + 1 := by
  have hne : (⌊q⌋ : ℚ) ≠ q := by
    intro he
    exact hd (by rw [← he]; exact Rat.den_intCast _)
  have hlt : (⌊q⌋ : ℚ) < q := lt_of_le_of_ne (Int.floor_le q) hne
  refine le_antisymm (Int.ceil_le_floor_add_one q) ?_
  rw [Int.add_one_le_iff]
  exact lt_of_le_of_lt (le_refl _) (Int.lt_ceil.mpr hlt)

/-- C4: Sphere::RayIntersect implements the quadratic root selection of the
spec: no intersection when the discriminant is negative, the smaller root s1
when it is positive, otherwise the larger root s2 when that is positive (the
ray origin lies inside the sphere), otherwise no intersection. -/
theorem rayIntersect_root_selection (s : Sphere) (origin direction : Vec3) :
    (s.sphDelta origin direction < 0 → s.RayIntersect origin direction = none) ∧
    (0 ≤ s.sphDelta origin direction → 0 < s.sphS1 origin direction →
      s.RayIntersect origin direction = some (s.sphS1 origin direction)) ∧
    (0 ≤ s.sphDelta origin direction → s.sphS1 origin direction ≤ 0 →
      0 < s.sphS2 origin direction →
      s.RayIntersect origin direction = some (s.sphS2 origin direction)) ∧
    (0 ≤ s.sphDelta origin direction → s.sphS1 origin direction ≤ 0 →
      s.sphS2 origin direction ≤ 0 → s.RayIntersect origin direction = none) := by
  refine ⟨?_, ?_, ?_, ?_⟩
  · intro h
    rw [Sphere.RayIntersect, if_pos h]
  · intro hd h1
    rw [Sphere.RayIntersect, if_neg (not_lt.mpr hd), if_pos h1]
  · intro hd h1 h2
    rw [Sphere.RayIntersect, if_neg (not_lt.mpr hd), if_neg (not_lt.mpr h1), if_pos h2]
  · intro hd h1 h2
    rw [Sphere.RayIntersect, if_neg (not_lt.mpr hd), if_neg (not_lt.mpr h1),
      if_neg (not_lt.mpr h2)]

/-- Witness for C4: a ray starting at the center of a sphere of radius 2 has
delta = 4, s1 = -2 and s2 = 2, and RayIntersect returns the exit root s2. -/
theorem rayIntersect_root_selection_witness :
    Sphere.RayIntersect ⟨⟨0, 0, 0⟩, 2, initMaterial⟩ ⟨0, 0, 0⟩ ⟨0, 0, -1⟩ =
      some (Sphere.sphS2 ⟨⟨0, 0, 0⟩, 2, initMaterial⟩ ⟨0, 0, 0⟩ ⟨0, 0, -1⟩) :=
  (rayIntersect_root_selection ⟨⟨0, 0, 0⟩, 2, initMaterial⟩ ⟨0, 0, 0⟩ ⟨0, 0, -1⟩).2.2.1
    (by norm_num [Sphere.sphDelta, Sphere.sphB, Vec3.sub, Vec3.dot])
    (by norm_num [Sphere.sphS1, Sphere.sphDelta, Sphere.sphB, Vec3.sub, Vec3.dot,
      ratSqrt_four])
    (by norm_num [Sphere.sphS2, Sphere.sphDelta, Sphere.sphB, Vec3.sub, Vec3.dot,
      ratSqrt_four])

/-- C9: reflecting a direction twice about the same unit-length normal gives
back the original direction. -/
theorem reflect_involution (direction normal : Vec3)
    (h : normal.dot normal = 1) :
    Reflect (Reflect direction normal) normal = direction := by
  obtain ⟨dx, dy, dz⟩ := direction
  obtain ⟨nx, ny, nz⟩ := normal
  simp only [Vec3.dot] at h
  simp only [Reflect, Vec3.sub, Vec3.smul, Vec3.dot, Vec3.mk.injEq]
  refine ⟨?_, ?_, ?_⟩
  · linear_combination (4 * (dx * nx + dy * ny + dz * nz) * nx) * h
  · linear_combination (4 * (dx * nx + dy * ny + dz * nz) * ny) * h
  · linear_combination (4 * (dx * nx + dy * ny + dz * nz) * nz) * h

/-- Witness for C9 at direction (1,2,3) and unit normal (0,1,0). -/
theorem reflect_involution_witness :
    Vec3.dot ⟨0, 1, 0⟩ ⟨0, 1, 0⟩ = 1 ∧
      Reflect (Reflect ⟨1, 2, 3⟩ ⟨0, 1, 0⟩) ⟨0, 1, 0⟩ = ⟨1, 2, 3⟩ :=
  ⟨by norm_num [Vec3.dot], reflect_involution ⟨1, 2, 3⟩ ⟨0, 1, 0⟩ (by norm_num [Vec3.dot])⟩

/-- C8: when the ray direction satisfies the near-parallel bound, the
checkerboard distance keeps its float-max default for any sphere list, and
with no spheres such a ray reports no hit. -/
theorem plane_skipped_when_parallel (origin direction : Vec3) (spheres : List Sphere)
    (h : |direction.y| ≤ 1/1000) :
    (SceneIntersect origin direction spheres).checkerboardDistance = fltMax ∧
    (SceneIntersect origin direction []).hit = false := by
  have hn : ¬ |direction.y| > 1/1000 := not_lt.mpr h
  have hrej : ∀ (sd : ℚ) (h1 : Hit), (planeData origin direction sd h1).1 = fltMax :=
    fun sd h1 => planeData_fst_rejected _ _ _ _ (fun hacc => hn hacc.1.1)
  constructor
  · rw [sceneIntersect_checkerboardDistance, hrej]
  · rw [sceneIntersect_hit]
    simp only [List.foldl_nil, hrej, min_self]
    exact decide_eq_false (by norm_num [fltMax])

/-- Witness for C8 at a direction with y component exactly 1e-3. -/
theorem plane_skipped_when_parallel_witness :
    |(Vec3.mk 0 (1/1000) (-1)).y| ≤ 1/1000 ∧
    (SceneIntersect ⟨0, 0, 0⟩ ⟨0, 1/1000, -1⟩ []).checkerboardDistance = fltMax ∧
    (SceneIntersect ⟨0, 0, 0⟩ ⟨0, 1/1000, -1⟩ []).hit = false :=
  ⟨by norm_num [abs_le], plane_skipped_when_parallel ⟨0, 0, 0⟩ ⟨0, 1/1000, -1⟩ []
    (by norm_num [abs_le])⟩

/-- C6: CastRay returns exactly the fixed background color whenever the depth
cutoff is reached or the scene intersection reports no hit, for any scene. -/
theorem castRay_base_case (origin direction : Vec3) (spheres : List Sphere)
    (lights : List Light) (depth : ℕ)
    (h : 5 ≤ depth ∨ (SceneIntersect origin direction spheres).hit = false) :
    CastRay origin direction spheres lights depth = backgroundColor := by
  rw [CastRay]
  rcases h with h | h
  · rw [show 5 - depth = 0 from by omega]
    rfl
  · cases hgas : 5 - depth with
    | zero => rfl
    | succ gas =>
        simp only [castRayFuel, h]
        exact if_neg (by simp)

/-- Witness for C6 at depth 5 over a nonempty scene. -/
theorem castRay_base_case_witness :
    CastRay ⟨0, 0, 0⟩ ⟨0, 0, -1⟩ [⟨⟨0, 0, -10⟩, 1, initMaterial⟩] [] 5 =
      backgroundColor :=
  castRay_base_case ⟨0, 0, 0⟩ ⟨0, 0, -1⟩ [⟨⟨0, 0, -10⟩, 1, initMaterial⟩] [] 5
    (Or.inl (by decide))

/-- C7: a light whose shadow ray hits some surface strictly closer than the
light itself contributes nothing to the accumulated diffuse and specular
intensities: the lighting loop over a list containing that light computes the
same pair as the loop with the light removed. -/
theorem occluded_light_contributes_nothing (spheres : List Sphere) (direction : Vec3)
    (hitInfo : Hit) (lights1 lights2 : List Light) (light : Light)
    (h : occluded spheres hitInfo light) :
    (lights1 ++ light :: lights2).foldl (lightStep spheres direction hitInfo) (0, 0) =
      (lights1 ++ lights2).foldl (lightStep spheres direction hitInfo) (0, 0) := by
  have hstep : ∀ acc : ℚ × ℚ, lightStep spheres direction hitInfo acc light = acc := by
    intro acc
    rw [lightStep, if_pos h]
  rw [List.foldl_append, List.foldl_append, List.foldl_cons, hstep]

/-- Witness for C7: a unit sphere centered between the surface point and the
light occludes it, and the loop over just that light accumulates (0, 0). -/
theorem occluded_light_contributes_nothing_witness :
    occluded [⟨⟨0, 5, 0⟩, 1, initMaterial⟩] ⟨⟨0, 0, 0⟩, ⟨0, 1, 0⟩, initMaterial⟩
      ⟨⟨0, 10, 0⟩, 3/2⟩ ∧
    (([] : List Light) ++ (⟨⟨0, 10, 0⟩, 3/2⟩ : Light) :: []).foldl
        (lightStep [⟨⟨0, 5, 0⟩, 1, initMaterial⟩] ⟨0, 0, -1⟩
          ⟨⟨0, 0, 0⟩, ⟨0, 1, 0⟩, initMaterial⟩) (0, 0) =
      (([] : List Light) ++ ([] : List Light)).foldl
        (lightStep [⟨⟨0, 5, 0⟩, 1, initMaterial⟩] ⟨0, 0, -1⟩
          ⟨⟨0, 0, 0⟩, ⟨0, 1, 0⟩, initMaterial⟩) (0, 0) :=
  by
  have hocc : occluded [⟨⟨0, 5, 0⟩, 1, initMaterial⟩] ⟨⟨0, 0, 0⟩, ⟨0, 1, 0⟩, initMaterial⟩
      ⟨⟨0, 10, 0⟩, 3/2⟩ := by
    norm_num [occluded, SceneIntersect, planeData, sphereStep, sphereHitAt,
      Sphere.RayIntersect, Sphere.sphDelta, Sphere.sphB, Sphere.sphS1, Sphere.sphS2,
      biasedOrigin, planeD, planeP, Vec3.normalize, Vec3.norm, Vec3.add, Vec3.sub,
      Vec3.smul, Vec3.dot, Vec3.neg, initHit, initMaterial,
      ratSqrt_one, ratSqrt_hundred, ratSqrt_shadowSq, fltMax, min_def, abs_le]
  exact ⟨hocc,
    occluded_light_contributes_nothing [⟨⟨0, 5, 0⟩, 1, initMaterial⟩] ⟨0, 0, -1⟩
      ⟨⟨0, 0, 0⟩, ⟨0, 1, 0⟩, initMaterial⟩ [] [] ⟨⟨0, 10, 0⟩, 3/2⟩ hocc⟩

/-- C5: SceneIntersect returns true exactly when the minimum of the nearest
sphere-hit distance and the accepted checkerboard-plane distance, each taken
as float-max when absent, is strictly less than 1000. -/
theorem sceneIntersect_hit_iff_min_lt_1000 (origin direction : Vec3)
    (spheres : List Sphere) :
    (SceneIntersect origin direction spheres).hit = true ↔
      min (specNearestSphereDistance origin direction spheres)
        (specPlaneDistance origin direction spheres) < 1000 := by
  have hsd : (spheres.foldl (sphereStep origin direction) (fltMax, initHit)).1 =
      specNearestSphereDistance origin direction spheres := by
    rw [specNearestSphereDistance]
    exact sphereLoop_fst origin direction spheres (fltMax, initHit)
  have hpd : (planeData origin direction
      (spheres.foldl (sphereStep origin direction) (fltMax, initHit)).1
      (spheres.foldl (sphereStep origin direction) (fltMax, initHit)).2).1 =
      specPlaneDistance origin direction spheres := by
    rw [specPlaneDistance]
    by_cases hacc : planeAccepted origin direction
        (specNearestSphereDistance origin direction spheres)
    · rw [if_pos hacc]
      exact planeData_fst_accepted _ _ _ _ (by rw [hsd]; exact hacc)
    · rw [if_neg hacc]
      exact planeData_fst_rejected _ _ _ _ (by rw [hsd]; exact hacc)
  rw [sceneIntersect_hit, decide_eq_true_eq, hpd, hsd]

/-- C10: when the nearest sphere intersection parameter t satisfies
1000 <= t < float-max and no plane hit is accepted, SceneIntersect returns
false, yet the hitInfo out-parameter has been overwritten with that sphere's
point, normal and material. -/
theorem no_hit_overwrites_hitInfo (origin direction : Vec3) (spheres : List Sphere)
    (t : ℚ) (ht : (SceneIntersect origin direction spheres).spheresDistance = t)
    (h1000 : 1000 ≤ t) (hmax : t < fltMax)
    (hplane : ¬ planeAccepted origin direction t) :
    (SceneIntersect origin direction spheres).hit = false ∧
    (SceneIntersect origin direction spheres).hitInfo.point =
      origin.add (direction.smul t) ∧
    ∃ s ∈ spheres, s.RayIntersect origin direction = some t ∧
      (SceneIntersect origin direction spheres).hitInfo.normal =
        ((origin.add (direction.smul t)).sub s.m_Center).normalize ∧
      (SceneIntersect origin direction spheres).hitInfo.m_Material = s.m_Material := by
  rw [sceneIntersect_spheresDistance] at ht
  have hhit : (SceneIntersect origin direction spheres).hitInfo =
      (spheres.foldl (sphereStep origin direction) (fltMax, initHit)).2 := by
    rw [sceneIntersect_hitInfo]
    exact planeData_snd_rejected _ _ _ _ (by rw [ht]; exact hplane)
  rcases sphereLoop_inv origin direction spheres (fltMax, initHit) with heq | ⟨s, hs, hri, hsnd⟩
  · exfalso
    have hf : (spheres.foldl (sphereStep origin direction) (fltMax, initHit)).1 = fltMax := by
      rw [heq]
    rw [ht] at hf
    rw [hf] at hmax
    exact lt_irrefl _ hmax
  · rw [ht] at hri hsnd
    refine ⟨?_, ?_, s, hs, hri, ?_, ?_⟩
    · rw [sceneIntersect_hit]
      have hpd : ∀ h1 : Hit, (planeData origin direction t h1).1 = fltMax :=
        fun h1 => planeData_fst_rejected _ _ _ _ hplane
      simp only [ht, hpd, show min t fltMax = t from min_eq_left (le_of_lt hmax)]
      exact decide_eq_false (not_lt.mpr h1000)
    · rw [hhit, hsnd]
      rfl
    · rw [hhit, hsnd]
      rfl
    · rw [hhit, hsnd]
      rfl

/-- Witness for C10: a unit sphere at z = -2000 is hit at t = 1999, past the
1000 cutoff, so SceneIntersect returns false while hitInfo carries the
sphere's data. -/
theorem no_hit_overwrites_hitInfo_witness :
    (SceneIntersect ⟨0, 0, 0⟩ ⟨0, 0, -1⟩ [⟨⟨0, 0, -2000⟩, 1, initMaterial⟩]).hit = false ∧
    (SceneIntersect ⟨0, 0, 0⟩ ⟨0, 0, -1⟩
      [⟨⟨0, 0, -2000⟩, 1, initMaterial⟩]).hitInfo.point =
      Vec3.add ⟨0, 0, 0⟩ (Vec3.smul ⟨0, 0, -1⟩ 1999) ∧
    ∃ s ∈ [(⟨⟨0, 0, -2000⟩, 1, initMaterial⟩ : Sphere)],
      s.RayIntersect ⟨0, 0, 0⟩ ⟨0, 0, -1⟩ = some 1999 ∧
      (SceneIntersect ⟨0, 0, 0⟩ ⟨0, 0, -1⟩
        [⟨⟨0, 0, -2000⟩, 1, initMaterial⟩]).hitInfo.normal =
        ((Vec3.add ⟨0, 0, 0⟩ (Vec3.smul ⟨0, 0, -1⟩ 1999)).sub s.m_Center).normalize ∧
      (SceneIntersect ⟨0, 0, 0⟩ ⟨0, 0, -1⟩
        [⟨⟨0, 0, -2000⟩, 1, initMaterial⟩]).hitInfo.m_Material = s.m_Material :=
  no_hit_overwrites_hitInfo ⟨0, 0, 0⟩ ⟨0, 0, -1⟩ [⟨⟨0, 0, -2000⟩, 1, initMaterial⟩] 1999
    (by norm_num [sceneIntersect_spheresDistance, sphereStep, Sphere.RayIntersect,
      Sphere.sphDelta, Sphere.sphB, Sphere.sphS1, Sphere.sphS2, Vec3.sub, Vec3.dot,
      ratSqrt_one, fltMax])
    (by norm_num) (by norm_num [fltMax])
    (by norm_num [planeAccepted, planeGeomOK])

/-- C3: when at least two candidate intersections exist (per-sphere hits and
the geometrically accepted checkerboard-plane hit), all within float range,
SceneIntersect reports the hit with the globally smallest distance: the
minimum of its two distances is one of the candidates, is at most every
candidate, and the reported hit point lies at that parameter along the ray. -/
theorem nearest_hit_selected (origin direction : Vec3) (spheres : List Sphere)
    (h2 : 2 ≤ (candidateDists origin direction spheres).length)
    (hlt : ∀ c ∈ candidateDists origin direction spheres, c < fltMax) :
    min (SceneIntersect origin direction spheres).spheresDistance
        (SceneIntersect origin direction spheres).checkerboardDistance
      ∈ candidateDists origin direction spheres ∧
    (∀ c ∈ candidateDists origin direction spheres,
      min (SceneIntersect origin direction spheres).spheresDistance
          (SceneIntersect origin direction spheres).checkerboardDistance ≤ c) ∧
    (SceneIntersect origin direction spheres).hitInfo.point =
      origin.add (direction.smul
        (min (SceneIntersect origin direction spheres).spheresDistance
          (SceneIntersect origin direction spheres).checkerboardDistance)) := by
  rw [sceneIntersect_spheresDistance, sceneIntersect_checkerboardDistance,
    sceneIntersect_hitInfo]
  have hsd := sphereLoop_fst origin direction spheres (fltMax, initHit)
  have hinv := sphereLoop_inv origin direction spheres (fltMax, initHit)
  generalize ha : spheres.foldl (sphereStep origin direction) (fltMax, initHit) = a
  rw [ha] at hsd hinv
  by_cases hacc : planeAccepted origin direction a.1
  · rw [planeData_fst_accepted _ _ _ _ hacc, planeData_snd_accepted _ _ _ _ hacc]
    rw [show min a.1 (planeD origin direction) = planeD origin direction from
      min_eq_right (le_of_lt hacc.2)]
    refine ⟨?_, ?_, rfl⟩
    · rw [candidateDists, if_pos hacc.1]
      exact List.mem_append_right _ (List.mem_singleton.mpr rfl)
    · intro c hc
      rw [candidateDists, if_pos hacc.1] at hc
      rcases List.mem_append.mp hc with hc | hc
      · have hac : a.1 ≤ c := by
          rw [hsd]
          exact foldl_min_le_mem _ _ c hc
        exact le_trans (le_of_lt hacc.2) hac
      · rw [List.mem_singleton.mp hc]
  · rw [planeData_fst_rejected _ _ _ _ hacc, planeData_snd_rejected _ _ _ _ hacc]
    have hsdlt : a.1 < fltMax := by
      by_cases hgeom : planeGeomOK origin direction
      · have hnd : a.1 ≤ planeD origin direction :=
          not_lt.mp (fun hd => hacc ⟨hgeom, hd⟩)
        have hdc : planeD origin direction ∈ candidateDists origin direction spheres := by
          rw [candidateDists, if_pos hgeom]
          exact List.mem_append_right _ (List.mem_singleton.mpr rfl)
        exact lt_of_le_of_lt hnd (hlt _ hdc)
      · have hts : spheres.filterMap
            (fun s => s.RayIntersect origin direction) ≠ [] := by
          intro hnil
          rw [candidateDists, if_neg hgeom, hnil] at h2
          simp at h2
        obtain ⟨t0, ht0⟩ := List.exists_mem_of_ne_nil _ hts
        have hle : a.1 ≤ t0 := by
          rw [hsd]
          exact foldl_min_le_mem _ _ t0 ht0
        have ht0lt : t0 < fltMax := by
          apply hlt
          rw [candidateDists, if_neg hgeom]
          simpa using ht0
        exact lt_of_le_of_lt hle ht0lt
    rw [show min a.1 fltMax = a.1 from min_eq_left (le_of_lt hsdlt)]
    have hmem : a.1 ∈ spheres.filterMap (fun s => s.RayIntersect origin direction) := by
      rcases foldl_min_eq_or_mem (spheres.filterMap
          (fun s => s.RayIntersect origin direction)) fltMax with hh | hh
      · exfalso
        rw [hsd, hh] at hsdlt
        exact lt_irrefl _ hsdlt
      · rw [hsd]
        exact hh
    refine ⟨?_, ?_, ?_⟩
    · rw [candidateDists]
      exact List.mem_append_left _ hmem
    · intro c hc
      rw [candidateDists] at hc
      rcases List.mem_append.mp hc with hc | hc
      · rw [hsd]
        exact foldl_min_le_mem _ _ c hc
      · by_cases hgeom : planeGeomOK origin direction
        · rw [if_pos hgeom] at hc
          rw [List.mem_singleton.mp hc]
          exact not_lt.mp (fun hd => hacc ⟨hgeom, hd⟩)
        · rw [if_neg hgeom] at hc
          cases hc
    · rcases hinv with heq | ⟨s, hs, hri, hsnd⟩
      · exfalso
        have hf : a.1 = fltMax := by rw [heq]
        rw [hf] at hsdlt
        exact lt_irrefl _ hsdlt
      · rw [hsnd]
        rfl

/-- Witness for C3: two spheres on the axis hit at t = 9 and t = 19; the
reported hit is the nearer one. -/
theorem nearest_hit_selected_witness :
    min (SceneIntersect ⟨0, 0, 0⟩ ⟨0, 0, -1⟩
          [⟨⟨0, 0, -10⟩, 1, initMaterial⟩, ⟨⟨0, 0, -20⟩, 1, initMaterial⟩]).spheresDistance
        (SceneIntersect ⟨0, 0, 0⟩ ⟨0, 0, -1⟩
          [⟨⟨0, 0, -10⟩, 1, initMaterial⟩, ⟨⟨0, 0, -20⟩, 1, initMaterial⟩]).checkerboardDistance
      ∈ candidateDists ⟨0, 0, 0⟩ ⟨0, 0, -1⟩
          [⟨⟨0, 0, -10⟩, 1, initMaterial⟩, ⟨⟨0, 0, -20⟩, 1, initMaterial⟩] ∧
    (∀ c ∈ candidateDists ⟨0, 0, 0⟩ ⟨0, 0, -1⟩
          [⟨⟨0, 0, -10⟩, 1, initMaterial⟩, ⟨⟨0, 0, -20⟩, 1, initMaterial⟩],
      min (SceneIntersect ⟨0, 0, 0⟩ ⟨0, 0, -1⟩
            [⟨⟨0, 0, -10⟩, 1, initMaterial⟩, ⟨⟨0, 0, -20⟩, 1, initMaterial⟩]).spheresDistance
          (SceneIntersect ⟨0, 0, 0⟩ ⟨0, 0, -1⟩
            [⟨⟨0, 0, -10⟩, 1, initMaterial⟩, ⟨⟨0, 0, -20⟩, 1, initMaterial⟩]).checkerboardDistance
        ≤ c) ∧
    (SceneIntersect ⟨0, 0, 0⟩ ⟨0, 0, -1⟩
        [⟨⟨0, 0, -10⟩, 1, initMaterial⟩, ⟨⟨0, 0, -20⟩, 1, initMaterial⟩]).hitInfo.point =
      Vec3.add ⟨0, 0, 0⟩ (Vec3.smul ⟨0, 0, -1⟩
        (min (SceneIntersect ⟨0, 0, 0⟩ ⟨0, 0, -1⟩
            [⟨⟨0, 0, -10⟩, 1, initMaterial⟩, ⟨⟨0, 0, -20⟩, 1, initMaterial⟩]).spheresDistance
          (SceneIntersect ⟨0, 0, 0⟩ ⟨0, 0, -1⟩
            [⟨⟨0, 0, -10⟩, 1, initMaterial⟩,
             ⟨⟨0, 0, -20⟩, 1, initMaterial⟩]).checkerboardDistance)) :=
  nearest_hit_selected ⟨0, 0, 0⟩ ⟨0, 0, -1⟩
    [⟨⟨0, 0, -10⟩, 1, initMaterial⟩, ⟨⟨0, 0, -20⟩, 1, initMaterial⟩]
    (by norm_num [candidateDists, planeGeomOK, Sphere.RayIntersect, Sphere.sphDelta,
      Sphere.sphB, Sphere.sphS1, Sphere.sphS2, Vec3.sub, Vec3.dot, ratSqrt_one,
      List.filterMap_cons, List.filterMap_nil])
    (by norm_num [candidateDists, planeGeomOK, Sphere.RayIntersect, Sphere.sphDelta,
      Sphere.sphB, Sphere.sphS1, Sphere.sphS2, Vec3.sub, Vec3.dot, ratSqrt_one,
      List.filterMap_cons, List.filterMap_nil, fltMax])

/-- Counterexample for C1: the ray (0,-7/25,-24/25) from the origin meets the
checkerboard plane at d = 100/7 and a mirror-like sphere farther away at
t = 193/7; the plane hit is reported (normal (0,1,0), plane distance below
the sphere distance), yet the reported material keeps the sphere's albedo,
whose specular weight is 10 and reflection weight 4/5, not zero: the plane
branch assigns only the diffuse color. -/
theorem plane_hit_material_counterexample :
    (SceneIntersect ⟨0, 0, 0⟩ ⟨0, -7/25, -24/25⟩
      [⟨⟨0, -8, -192/7⟩, 1, ⟨1, ⟨0, 10, 4/5, 0⟩, ⟨1, 1, 1⟩, 1425⟩⟩]).hit = true ∧
    (SceneIntersect ⟨0, 0, 0⟩ ⟨0, -7/25, -24/25⟩
      [⟨⟨0, -8, -192/7⟩, 1, ⟨1, ⟨0, 10, 4/5, 0⟩, ⟨1, 1, 1⟩, 1425⟩⟩]).checkerboardDistance =
      100/7 ∧
    (SceneIntersect ⟨0, 0, 0⟩ ⟨0, -7/25, -24/25⟩
      [⟨⟨0, -8, -192/7⟩, 1, ⟨1, ⟨0, 10, 4/5, 0⟩, ⟨1, 1, 1⟩, 1425⟩⟩]).spheresDistance =
      193/7 ∧
    (SceneIntersect ⟨0, 0, 0⟩ ⟨0, -7/25, -24/25⟩
      [⟨⟨0, -8, -192/7⟩, 1, ⟨1, ⟨0, 10, 4/5, 0⟩, ⟨1, 1, 1⟩, 1425⟩⟩]).hitInfo.normal =
      ⟨0, 1, 0⟩ ∧
    (SceneIntersect ⟨0, 0, 0⟩ ⟨0, -7/25, -24/25⟩
        [⟨⟨0, -8, -192/7⟩, 1,
          ⟨1, ⟨0, 10, 4/5, 0⟩, ⟨1, 1, 1⟩, 1425⟩⟩]).hitInfo.m_Material.m_Albedo.y = 10 := by
  refine ⟨?_, ?_, ?_, ?_, ?_⟩ <;>
    norm_num [SceneIntersect, planeData, sphereStep, sphereHitAt, Sphere.RayIntersect,
      Sphere.sphDelta, Sphere.sphB, Sphere.sphS1, Sphere.sphS2, planeD, planeP,
      Vec3.add, Vec3.smul, Vec3.sub, Vec3.dot, Vec3.normalize, Vec3.norm, Vec3.mk.injEq,
      initHit, initMaterial, ratSqrt_one, fltMax, min_def, abs_lt, lt_abs]

/-- C1 amended: when SceneIntersect accepts a checkerboard-plane hit, the
reported diffuse color is the tile color scaled by 0.3; but only the diffuse
color is assigned by the plane branch: the other material fields keep their
prior value, which is the default material (albedo (1,0,0,0): zero specular,
reflection and refraction weights, a purely diffuse surface) exactly when no
sphere was intersected along the ray; when a sphere was also intersected at
a greater distance, its albedo is what remains in the reported material. -/
theorem plane_hit_material_amended (origin direction : Vec3) (spheres : List Sphere)
    (hacc : planeAccepted origin direction
      (SceneIntersect origin direction spheres).spheresDistance) :
    (SceneIntersect origin direction spheres).hitInfo.m_Material.m_DiffuseColor =
      (checkerboardColor (planeP origin direction).x (planeP origin direction).z).smul
        (3/10) ∧
    ((SceneIntersect origin direction spheres).spheresDistance = fltMax →
      (SceneIntersect origin direction spheres).hitInfo.m_Material.m_Albedo =
        ⟨1, 0, 0, 0⟩) := by
  rw [sceneIntersect_spheresDistance] at hacc
  constructor
  · rw [sceneIntersect_hitInfo, planeData_snd_accepted _ _ _ _ hacc]
  · intro hfl
    rw [sceneIntersect_spheresDistance] at hfl
    have hun := sphereLoop_untouched origin direction spheres (fltMax, initHit) hfl
    rw [sceneIntersect_hitInfo, planeData_snd_accepted _ _ _ _ hacc, hun]
    rfl

/-- Witness for C1 amended: ray (0,-4,-20) from the origin over an empty
scene hits the plane at (0,-4,-20); the reported albedo is the default. -/
theorem plane_hit_material_amended_witness :
    (SceneIntersect ⟨0, 0, 0⟩ ⟨0, -4, -20⟩ []).hitInfo.m_Material.m_DiffuseColor =
      (checkerboardColor (planeP ⟨0, 0, 0⟩ ⟨0, -4, -20⟩).x
        (planeP ⟨0, 0, 0⟩ ⟨0, -4, -20⟩).z).smul (3/10) ∧
    ((SceneIntersect ⟨0, 0, 0⟩ ⟨0, -4, -20⟩ []).spheresDistance = fltMax →
      (SceneIntersect ⟨0, 0, 0⟩ ⟨0, -4, -20⟩ []).hitInfo.m_Material.m_Albedo =
        ⟨1, 0, 0, 0⟩) :=
  plane_hit_material_amended ⟨0, 0, 0⟩ ⟨0, -4, -20⟩ []
    (by norm_num [planeAccepted, planeGeomOK, planeD, planeP, SceneIntersect,
      Vec3.add, Vec3.smul, fltMax, abs_lt, lt_abs])

/-- Counterexample for C2: over the empty scene the ray (0,-4,-21) is
resolved to a plane hit at (0,-4,-21); the floor-based index
floor(0.5*0 + 1000) + floor(0.5*(-21)) = 1000 - 11 = 989 is odd, so the
claim predicts the white tile, but the code truncates 0.5*z toward zero,
obtains 1000 - 10 = 990, even, and reports the pale-orange tile color
scaled by 0.3. -/
theorem checkerboard_parity_counterexample :
    (⌊((0:ℚ) / 2 + 1000)⌋ + ⌊((-21:ℚ) / 2)⌋) % 2 = 1 ∧
    (SceneIntersect ⟨0, 0, 0⟩ ⟨0, -4, -21⟩ []).hit = true ∧
    (SceneIntersect ⟨0, 0, 0⟩ ⟨0, -4, -21⟩ []).hitInfo.point = ⟨0, -4, -21⟩ ∧
    (SceneIntersect ⟨0, 0, 0⟩ ⟨0, -4, -21⟩ []).hitInfo.m_Material.m_DiffuseColor =
      (Vec3.mk 1 (7/10) (3/10)).smul (3/10) ∧
    (SceneIntersect ⟨0, 0, 0⟩ ⟨0, -4, -21⟩ []).hitInfo.m_Material.m_DiffuseColor ≠
      (Vec3.mk 1 1 1).smul (3/10) := by
  refine ⟨by norm_num, ?_, ?_, ?_, ?_⟩ <;>
    norm_num [SceneIntersect, planeData, planeD, planeP, checkerboardColor, ratTrunc,
      Vec3.add, Vec3.smul, Vec3.mk.injEq, initHit, initMaterial, fltMax, min_def,
      abs_lt, lt_abs]

/-- C2 amended: for an accepted checkerboard-plane hit at (x,-4,z) the tile
color is white exactly when floor(0.5x + 1000) + t(z) is odd, where
t(z) = floor(0.5z) when 0.5z is an integer and floor(0.5z) + 1 otherwise:
the code casts 0.5z to int, truncating toward zero, which on the negative z
of the accepted region is the ceiling rather than the floor. -/
theorem checkerboard_parity_amended (origin direction : Vec3) (spheres : List Sphere)
    (hacc : planeAccepted origin direction
      (SceneIntersect origin direction spheres).spheresDistance) :
    (SceneIntersect origin direction spheres).hitInfo.point = planeP origin direction ∧
    (SceneIntersect origin direction spheres).hitInfo.m_Material.m_DiffuseColor =
      (if (⌊(planeP origin direction).x / 2 + 1000⌋ +
          (if ((planeP origin direction).z / 2).den = 1
           then ⌊(planeP origin direction).z / 2⌋
           else ⌊(planeP origin direction).z / 2⌋ + 1)) % 2 = 1
       then (⟨1, 1, 1⟩ : Vec3) else ⟨1, 7/10, 3/10⟩).smul (3/10) := by
  rw [sceneIntersect_spheresDistance] at hacc
  have hx : |(planeP origin direction).x| < 10 := hacc.1.2.2.1
  have hz : (planeP origin direction).z < -10 := hacc.1.2.2.2.1
  refine ⟨?_, ?_⟩
  · rw [sceneIntersect_hitInfo, planeData_snd_accepted _ _ _ _ hacc]
  · rw [sceneIntersect_hitInfo, planeData_snd_accepted _ _ _ _ hacc]
    show (checkerboardColor (planeP origin direction).x
      (planeP origin direction).z).smul (3/10) = _
    rw [checkerboardColor]
    have h1 : ratTrunc ((planeP origin direction).x / 2 + 1000) =
        ⌊(planeP origin direction).x / 2 + 1000⌋ := by
      apply ratTrunc_of_nonneg
      have hb := abs_lt.mp hx
      linarith [hb.1]
    have h2 : ratTrunc ((planeP origin direction).z / 2) =
        (if ((planeP origin direction).z / 2).den = 1
         then ⌊(planeP origin direction).z / 2⌋
         else ⌊(planeP origin direction).z / 2⌋ + 1) := by
      have hzneg : (planeP origin direction).z / 2 < 0 := by linarith
      rw [ratTrunc_of_neg _ hzneg]
      by_cases hden : ((planeP origin direction).z / 2).den = 1
      · rw [if_pos hden, ceil_eq_floor_of_den_one _ hden]
      · rw [if_neg hden, ceil_eq_floor_add_one_of_den_ne_one _ hden]
    simp only [h1, h2]

/-- Witness for C2 amended: the plane hit (0,-4,-20) of the ray (0,-4,-20)
over the empty scene, where 0.5z = -10 is an integer. -/
theorem checkerboard_parity_amended_witness :
    (SceneIntersect ⟨0, 0, 0⟩ ⟨0, -4, -20⟩ []).hitInfo.point =
      planeP ⟨0, 0, 0⟩ ⟨0, -4, -20⟩ ∧
    (SceneIntersect ⟨0, 0, 0⟩ ⟨0, -4, -20⟩ []).hitInfo.m_Material.m_DiffuseColor =
      (if (⌊(planeP ⟨0, 0, 0⟩ ⟨0, -4, -20⟩).x / 2 + 1000⌋ +
          (if ((planeP ⟨0, 0, 0⟩ ⟨0, -4, -20⟩).z / 2).den = 1
           then ⌊(planeP ⟨0, 0, 0⟩ ⟨0, -4, -20⟩).z / 2⌋
           else ⌊(planeP ⟨0, 0, 0⟩ ⟨0, -4, -20⟩).z / 2⌋ + 1)) % 2 = 1
       then (⟨1, 1, 1⟩ : Vec3) else ⟨1, 7/10, 3/10⟩).smul (3/10) :=
  checkerboard_parity_amended ⟨0, 0, 0⟩ ⟨0, -4, -20⟩ []
    (by norm_num [planeAccepted, planeGeomOK, planeD, planeP, SceneIntersect,
      Vec3.add, Vec3.smul, fltMax, abs_lt, lt_abs])
